import Mathlib

/-!
Shallow embedding of the multi-channel message delivery and status-tracking
core of the Shreenathji lead-outreach application:
* `src/services/messagingService.ts` — the delivery simulator and the
  single-subscriber status notifier;
* the webhook-correlation block, the status-update listener, `addMessage`
  and `sendMessage` of the application shell (`src/unnamed/part_000`,
  lines 447–497, 520–529, 631–653).

Randomness (`Math.random()`) is modelled by rational draws in `[0,1)`
passed as explicit parameters; timer-based continuations are modelled by
the order in which the scheduled emissions are produced (the source
schedules DELIVERED strictly after SENT and READ strictly after
DELIVERED for a single message).  `Date.now()` is modelled by an explicit
`now : Nat` parameter.
-/

namespace Shreenathji

/-- Modelled from the spec: the `Channel` enum of `src/types.ts` (the file
is not under `src/`); §3 of the spec: "enumerated variant
{WHATSAPP, WECHAT, EMAIL}".  The string values are the channel display
names used by the webhook transport ("WhatsApp" / "WeChat"). -/
inductive Channel
  | WHATSAPP
  | WECHAT
  | EMAIL
deriving DecidableEq, Repr

/-- Modelled from the spec: string value of a `Channel` variant as used in
template literals of the source. -/
def Channel.str : Channel → String
  | .WHATSAPP => "WhatsApp"
  | .WECHAT => "WeChat"
  | .EMAIL => "Email"

/-- Modelled from the spec: the `MessageStatus` enum of `src/types.ts`
(not under `src/`); §3: "ordered lifecycle {SENDING, SENT, DELIVERED,
READ, FAILED}". -/
inductive MessageStatus
  | SENDING
  | SENT
  | DELIVERED
  | READ
  | FAILED
deriving DecidableEq, Repr

/-- Modelled from the spec: the `LeadStatus` enum of `src/types.ts` (not
under `src/`); only the variants referenced by the embedded code
(PENDING, CONTACTED, ENGAGED) are needed. -/
inductive LeadStatus
  | PENDING
  | CONTACTED
  | ENGAGED
deriving DecidableEq, Repr

/-- An entry of `Importer.activityLog` (shape taken from the literals
built at `part_000` lines 487, 605, 638). -/
structure ActivityLogEntry where
  id : String
  timestamp : Nat
  type : String
  description : String
deriving DecidableEq, Repr

/-- The `Message` record (§3 of the spec; literals at `part_000` lines
474–481 and 631–634).  `status` is optional in the source
(`initialStatus?`), hence `Option`. -/
structure Message where
  id : String
  content : String
  sender : String
  timestamp : Nat
  channel : Channel
  status : Option MessageStatus
  feedback : Option String := none
deriving DecidableEq, Repr

/-- The `Importer` (lead) record, restricted to the fields the core reads
or writes (§3 of the spec). -/
structure Importer where
  id : String
  companyName : String
  contactDetail : String
  status : LeadStatus
  chatHistory : List Message
  activityLog : List ActivityLogEntry
  lastContacted : Nat
deriving DecidableEq, Repr

/-! ## JavaScript string helpers

`String.prototype.includes` and truthiness of possibly-`undefined`
string values (`none` plays `undefined`). -/

/-- Here `listStartsWith hay needle` holds iff `needle` is a prefix of `hay`. -/
def listStartsWith : List Char → List Char → Bool
  | _, [] => true
  | [], _ :: _ => false
  | a :: as, b :: bs => a == b && listStartsWith as bs

/-- Here `listContainsSeq needle hay` holds iff `needle` occurs contiguously in `hay`. -/
def listContainsSeq (needle : List Char) : List Char → Bool
  | [] => listStartsWith [] needle
  | a :: t => listStartsWith (a :: t) needle || listContainsSeq needle t

/-- JavaScript `s.includes(sub)`. -/
def strIncludes (s sub : String) : Bool :=
  listContainsSeq sub.toList s.toList

/-- Truthiness of a JS string value: `undefined` and `""` are falsy. -/
def jsTruthy : Option String → Bool
  | none => false
  | some s => !(s == "")

/-- JS `t || d` for a possibly-`undefined` number (`0` is falsy):
used for `timestamp: timestamp || Date.now()` at `part_000` line 478. -/
def jsNumOr (t : Option Nat) (d : Nat) : Nat :=
  match t with
  | some v => if v = 0 then d else v
  | none => d

/-! ## Delivery simulator (`src/services/messagingService.ts`)

`sendMessage` draws `Math.random()` twice on the success path: once to
decide rejection (line 32, reject iff the draw exceeds `0.98`) and once
to decide whether a READ receipt is scheduled (line 48, READ iff the
draw exceeds `0.3`).  On acceptance it emits SENT synchronously (line
38), schedules DELIVERED (line 45) and then, on the READ branch, READ
(line 50); for one message id these fire in exactly that order.  The
emissions are collected as `(messageId, status)` pairs in emission
order. -/

structure SendResult where
  success : Bool
  error : Option String := none
deriving DecidableEq, Repr

namespace MessagingService

/-- The function `MessagingService.sendMessage` (lines 18–56): returns the synchronous
result together with the ordered list of status emissions made through
the status-update notifier for this call. -/
def sendMessage (messageId : String) (_to _content : String)
    (_channel : Channel) (failDraw readDraw : ℚ) :
    SendResult × List (String × MessageStatus) :=
  if failDraw > 98 / 100 then
    ({ success := false, error := some "Gateway Timeout" }, [])
  else
    ({ success := true },
      [(messageId, .SENT), (messageId, .DELIVERED)]
        ++ if readDraw > 3 / 10 then [(messageId, .READ)] else [])

end MessagingService

/-! ## Status notifier (`messagingService.ts` lines 9–11 and 61–77)

One module-level callback slot per event kind; registering overwrites
the slot; emission invokes the current slot if present and is dropped
otherwise.  Handler payloads are abstract types `α`, `β`, `γ`. -/

structure Listeners (α β γ : Type) where
  incomingListener : Option α
  statusListener : Option β
  typingListener : Option γ
deriving DecidableEq, Repr

namespace Listeners

/-- Registration `MessagingService.onIncomingMessage` (line 61). -/
def onIncomingMessage (s : Listeners α β γ) (handler : α) : Listeners α β γ :=
  { s with incomingListener := some handler }

/-- Registration `MessagingService.onMessageStatusUpdate` (line 68). -/
def onMessageStatusUpdate (s : Listeners α β γ) (handler : β) : Listeners α β γ :=
  { s with statusListener := some handler }

/-- Registration `MessagingService.onTypingStatus` (line 75). -/
def onTypingStatus (s : Listeners α β γ) (handler : γ) : Listeners α β γ :=
  { s with typingListener := some handler }

/-- Dispatch of a status-update emission
(`if (statusListener) statusListener(messageId, status)`): returns the
handler invoked together with its arguments, or `none` when the event is
dropped. -/
def emitStatus (s : Listeners α β γ) (messageId : String)
    (status : MessageStatus) : Option (β × String × MessageStatus) :=
  s.statusListener.map fun h => (h, messageId, status)

/-- Dispatch of an inbound-message emission
(`if (incomingListener) incomingListener(...)`, line 95). -/
def emitIncoming (s : Listeners α β γ) (importerId : Option String)
    (contactDetail content : String) (channel : Channel) :
    Option (α × Option String × String × String × Channel) :=
  s.incomingListener.map fun h => (h, importerId, contactDetail, content, channel)

/-- Dispatch of a typing emission
(`if (typingListener) typingListener(...)`, lines 85, 92). -/
def emitTyping (s : Listeners α β γ) (importerId : String)
    (isTyping : Bool) : Option (γ × String × Bool) :=
  s.typingListener.map fun h => (h, importerId, isTyping)

end Listeners

/-! ## Webhook payload shapes (`part_000` lines 447–464)

The raw payload is a JS object; the handler probes it for the WhatsApp
nested shape (`entry[0].changes[0].value.messages[0]` with optional
chaining at every step), the WhatsApp fallback shape
(`payload.message` / `payload.from`), and the WeChat shape
(`payload.Content` / `payload.FromUserName`).  `Option` marks fields the
source reaches through `?.` or that may be absent; absent lists are
identified with empty ones (both make the `[0]` probe yield nothing). -/

structure WAText where
  body : Option String
deriving DecidableEq, Repr

structure WAMessage where
  text : Option WAText
  from_ : Option String
deriving DecidableEq, Repr

structure WAValue where
  messages : List WAMessage
deriving DecidableEq, Repr

structure WAChange where
  value : Option WAValue
deriving DecidableEq, Repr

structure WAEntry where
  changes : List WAChange
deriving DecidableEq, Repr

structure RawPayload where
  entry : List WAEntry := []
  message : Option String := none
  from_ : Option String := none
  Content : Option String := none
  FromUserName : Option String := none
deriving DecidableEq, Repr

/-- The probe `payload?.entry?.[0]?.changes?.[0]?.value?.messages?.[0]`
(line 453). -/
def waPrimaryMessage (p : RawPayload) : Option WAMessage :=
  (((p.entry.head?.bind fun e => e.changes.head?).bind
    fun c => c.value).bind fun v => v.messages.head?)

/-- The expression `msg.text?.body || '[Media]'` (line 455): `undefined` and the empty
string both fall through to `'[Media]'`. -/
def waContent (m : WAMessage) : String :=
  match m.text.bind WAText.body with
  | some b => if b = "" then "[Media]" else b
  | none => "[Media]"

/-- Lines 449–464: the `content` / `contact` extraction.  Both variables
start as `''`; either may end up `undefined` (`none`) when assigned from
an absent field. -/
def extractContentContact (channel : String) (p : RawPayload) :
    Option String × Option String :=
  if channel = "WhatsApp" then
    match waPrimaryMessage p with
    | some m => (some (waContent m), m.from_)
    | none =>
      if jsTruthy p.message then (p.message, p.from_)
      else (some "", some "")
  else if channel = "WeChat" then
    (p.Content, p.FromUserName)
  else (some "", some "")

/-- The lead-lookup predicate of line 468:
`i.contactDetail.includes(contact) || contact.includes(i.contactDetail)`. -/
def contactMatches (contact : String) (i : Importer) : Bool :=
  strIncludes i.contactDetail contact || strIncludes contact i.contactDetail

/-- External calls the webhook handler makes besides mutating the store:
`CampaignService.stopEnrollment` (line 472) is the only one in the
source; a notifier inbound-message invocation, had the handler made one,
would be recorded with `notifyIncoming`. -/
inductive AppEffect
  | stopEnrollment (importerId : String)
  | notifyIncoming (importerId : Option String) (contact content : String)
      (channel : Channel)
deriving DecidableEq, Repr

/-- Whether an effect is a notifier inbound-message invocation. -/
def AppEffect.isNotifyIncoming : AppEffect → Bool
  | .notifyIncoming _ _ _ _ => true
  | .stopEnrollment _ => false

/-- The `onWebhookPayload` handler (`part_000` lines 447–497): extracts
content and contact, and when both are truthy looks up the first lead
whose stored contact detail matches bidirectionally; on a match it stops
that lead's campaign enrollment and rewrites the store, appending the new
inbound message and an activity-log entry to the matched lead; otherwise
the store is returned unchanged.  Returns the new store and the list of
external calls made. -/
def onWebhookPayload (channel : String) (p : RawPayload)
    (timestamp : Option Nat) (now : Nat) (importers : List Importer) :
    List Importer × List AppEffect :=
  let extracted := extractContentContact channel p
  if jsTruthy extracted.1 && jsTruthy extracted.2 then
    let content := extracted.1.getD ""
    let contact := extracted.2.getD ""
    match importers.find? (contactMatches contact) with
    | some existing =>
      let newMessage : Message :=
        { id := "wh-" ++ toString now
          content := content
          sender := "importer"
          timestamp := jsNumOr timestamp now
          channel := if channel = "WhatsApp" then .WHATSAPP else .WECHAT
          status := some .DELIVERED }
      (importers.map fun i =>
        if i.id = existing.id then
          { i with
            status := .ENGAGED
            chatHistory := i.chatHistory ++ [newMessage]
            lastContacted := now
            activityLog := i.activityLog ++
              [{ id := "log-" ++ toString now, timestamp := now,
                 type := "system",
                 description := "Incoming " ++ channel ++ " message" }] }
        else i,
       [.stopEnrollment existing.id])
    | none => (importers, [])
  else (importers, [])

/-! ## Store-side message handling (`part_000` lines 520–529, 631–653) -/

/-- The status-update listener registered at lines 520–529: for each lead,
if a message with the given id exists in its chat history, rewrite that
lead's history replacing the message's status; otherwise leave the lead
as is. -/
def applyStatusUpdate (importers : List Importer) (messageId : String)
    (status : MessageStatus) : List Importer :=
  importers.map fun imp =>
    if imp.chatHistory.any (fun m => m.id == messageId) then
      { imp with
        chatHistory := imp.chatHistory.map fun m =>
          if m.id == messageId then { m with status := some status } else m }
    else imp

/-- The helper `addMessage` (lines 631–643): builds a message with id
`Date.now().toString()` and appends it, with an activity-log entry for
agent or importer senders, to the addressed lead. -/
def addMessage (importers : List Importer) (importerId content sender : String)
    (channelOverride : Option Channel) (initialStatus : Option MessageStatus)
    (now : Nat) : List Importer :=
  let newMessage : Message :=
    { id := toString now
      content := content
      sender := sender
      timestamp := now
      channel := channelOverride.getD .EMAIL
      status := initialStatus }
  importers.map fun imp =>
    if imp.id ≠ importerId then imp
    else
      let logs :=
        if sender = "agent" then
          imp.activityLog ++
            [{ id := "msg-" ++ newMessage.id, timestamp := now,
               type := "system",
               description := "Outbound via " ++
                 (channelOverride.map Channel.str).getD "undefined" }]
        else if sender = "importer" then
          imp.activityLog ++
            [{ id := "msg-" ++ newMessage.id, timestamp := now,
               type := "system",
               description := "Inbound via " ++
                 (channelOverride.map Channel.str).getD "undefined" }]
        else imp.activityLog
      { imp with
        chatHistory := imp.chatHistory ++ [newMessage]
        activityLog := logs
        lastContacted := now }

/-- The failure branch of the app-level `sendMessage` (line 649): mark the
message FAILED in the owning lead's history. -/
def markFailed (importers : List Importer) (importerId msgId : String) :
    List Importer :=
  importers.map fun i =>
    if i.id == importerId then
      { i with
        chatHistory := i.chatHistory.map fun m =>
          if m.id == msgId then { m with status := some .FAILED } else m }
    else i

/-- The app-level `sendMessage` (lines 645–653): append the outbound
message with status SENDING, call the delivery simulator, and on
rejection mark the message FAILED.  Returns the store as left by the
synchronous part of the call, the simulator's result, and the simulator's
scheduled status emissions. -/
def appSendMessage (importer : Importer) (content : String)
    (channel : Channel) (failDraw readDraw : ℚ) (now : Nat)
    (importers : List Importer) :
    List Importer × SendResult × List (String × MessageStatus) :=
  let store1 := addMessage importers importer.id content "agent"
    (some channel) (some .SENDING) now
  let msgId := toString now
  let sent := MessagingService.sendMessage msgId importer.contactDetail
    content channel failDraw readDraw
  if sent.1.success then (store1, sent.1, sent.2)
  else (markFailed store1 importer.id msgId, sent.1, sent.2)

/-- The successive states of the store along one send: the state after the
message is appended (status SENDING), then — on acceptance — the state
after the status listener applies each scheduled emission in emission
order, or — on rejection — the state after the caller marks the message
FAILED. -/
def sendTrace (importer : Importer) (content : String) (channel : Channel)
    (failDraw readDraw : ℚ) (now : Nat) (importers : List Importer) :
    List (List Importer) :=
  let store1 := addMessage importers importer.id content "agent"
    (some channel) (some .SENDING) now
  let msgId := toString now
  let sent := MessagingService.sendMessage msgId importer.contactDetail
    content channel failDraw readDraw
  if sent.1.success then
    sent.2.scanl (fun s e => applyStatusUpdate s e.1 e.2) store1
  else
    [store1, markFailed store1 importer.id msgId]

/-- First message with the given id anywhere in the store (leads in store
order, messages in history order). -/
def findMsg : List Importer → String → Option Message
  | [], _ => none
  | i :: t, msgId =>
    match i.chatHistory.find? (fun m => m.id == msgId) with
    | some m => some m
    | none => findMsg t msgId

/-- Status of the first message with the given id, when present. -/
def statusOf (importers : List Importer) (msgId : String) :
    Option MessageStatus :=
  (findMsg importers msgId).bind Message.status

/-- One admissible step of a message's stored status: either a strictly
forward move along SENDING < SENT < DELIVERED < READ, or a move to FAILED
from SENDING only. -/
def statusStepOk : MessageStatus → MessageStatus → Bool
  | .SENDING, .SENT => true
  | .SENDING, .DELIVERED => true
  | .SENDING, .READ => true
  | .SENT, .DELIVERED => true
  | .SENT, .READ => true
  | .DELIVERED, .READ => true
  | .SENDING, .FAILED => true
  | _, _ => false

/-- The step relation `statusStepOk` lifted to the observations `statusOf` makes along a
trace: both statuses must be present and form an admissible step. -/
def statusStepOkOpt : Option MessageStatus → Option MessageStatus → Bool
  | some a, some b => statusStepOk a b
  | _, _ => false

/-! # Theorems -/

/-! ## Lemmas about `findMsg` along the store transforms -/

theorem find?_append_of_forall_neg {α : Type} (p : α → Bool)
    (l1 l2 : List α) (h : ∀ x ∈ l1, ¬ p x = true) :
    (l1 ++ l2).find? p = l2.find? p := by
  induction l1 with
  | nil => simp
  | cons a t ih =>
    rw [List.cons_append, List.find?_cons_of_neg _ (h a (by simp))]
    exact ih fun x hx => h x (by simp [hx])

theorem find?_fresh_none (l : List Message) (nid : String)
    (hfresh : ∀ m ∈ l, m.id ≠ nid) :
    l.find? (fun m => m.id == nid) = none := by
  rw [List.find?_eq_none]
  intro m hm
  simp only [beq_iff_eq]
  exact hfresh m hm

/-- Equation: a lead whose history resolves the id heads the store. -/
theorem findMsg_cons_found {a : Importer} {t : List Importer}
    {mid : String} {m : Message}
    (h : a.chatHistory.find? (fun x => x.id == mid) = some m) :
    findMsg (a :: t) mid = some m := by
  conv_lhs => unfold findMsg
  rw [h]

/-- Equation: a lead whose history does not resolve the id is skipped. -/
theorem findMsg_cons_not_found {a : Importer} {t : List Importer}
    {mid : String}
    (h : a.chatHistory.find? (fun x => x.id == mid) = none) :
    findMsg (a :: t) mid = findMsg t mid := by
  conv_lhs => unfold findMsg
  rw [h]

/-- After `addMessage` with a fresh message id and the addressed lead
present, the fresh id resolves to the newly appended message. -/
theorem findMsg_addMessage (importers : List Importer)
    (iid content sender : String) (ch : Option Channel)
    (st : Option MessageStatus) (now : Nat)
    (hfresh : ∀ i ∈ importers, ∀ m ∈ i.chatHistory, m.id ≠ toString now)
    (hlead : ∃ i ∈ importers, i.id = iid) :
    findMsg (addMessage importers iid content sender ch st now)
      (toString now) =
      some { id := toString now, content := content, sender := sender,
             timestamp := now, channel := ch.getD .EMAIL, status := st } := by
  induction importers with
  | nil => simp at hlead
  | cons a t ih =>
    have hfa : ∀ m ∈ a.chatHistory, m.id ≠ toString now :=
      hfresh a (by simp)
    have hft : ∀ i ∈ t, ∀ m ∈ i.chatHistory, m.id ≠ toString now :=
      fun i hi => hfresh i (by simp [hi])
    simp only [addMessage, List.map_cons]
    by_cases hid : a.id ≠ iid
    · have hlead' : ∃ i ∈ t, i.id = iid := by
        rcases hlead with ⟨i, hi, hiid⟩
        rcases List.mem_cons.mp hi with rfl | hit
        · exact absurd hiid hid
        · exact ⟨i, hit, hiid⟩
      rw [if_pos hid]
      rw [findMsg_cons_not_found (find?_fresh_none a.chatHistory _ hfa)]
      have := ih hft hlead'
      simp only [addMessage] at this
      exact this
    · rw [if_neg hid]
      refine findMsg_cons_found ?_
      show (a.chatHistory ++ [_]).find? _ = _
      rw [find?_append_of_forall_neg _ _ _
        (fun m hm => by simpa using hfa m hm)]
      simp

/-- Rewriting each message whose id matches (with an id-preserving update)
moves `find?` to the updated found message. -/
theorem find?_map_setStatus (l : List Message) (mid : String)
    (upd : Message → Message) (hid : ∀ m, (upd m).id = m.id)
    (m : Message) (h : l.find? (fun m => m.id == mid) = some m) :
    (l.map fun x => if x.id == mid then upd x else x).find?
      (fun m => m.id == mid) = some (upd m) := by
  induction l with
  | nil => simp at h
  | cons a t ih =>
    rw [List.map_cons]
    by_cases pa : (a.id == mid) = true
    · have hfind : List.find? (fun x => x.id == mid) (a :: t) = some a :=
        List.find?_cons_of_pos _ pa
      rw [hfind] at h
      injection h with hm
      rw [if_pos pa, ← hm]
      have hu : ((upd a).id == mid) = true := by rw [hid]; exact pa
      exact List.find?_cons_of_pos _ hu
    · have hfind : List.find? (fun x => x.id == mid) (a :: t) =
          List.find? (fun x => x.id == mid) t :=
        List.find?_cons_of_neg _ pa
      rw [hfind] at h
      rw [if_neg pa]
      have hstep : List.find? (fun x => x.id == mid)
          (a :: t.map fun x => if x.id == mid then upd x else x) =
          List.find? (fun x => x.id == mid)
            (t.map fun x => if x.id == mid then upd x else x) :=
        List.find?_cons_of_neg _ pa
      rw [hstep]
      exact ih h

/-- Applying `applyStatusUpdate` rewrites the status of the first message carrying
the id and nothing about where `findMsg` resolves. -/
theorem findMsg_applyStatusUpdate (importers : List Importer)
    (mid : String) (st : MessageStatus) (m : Message)
    (h : findMsg importers mid = some m) :
    findMsg (applyStatusUpdate importers mid st) mid =
      some { m with status := some st } := by
  induction importers with
  | nil => simp [findMsg] at h
  | cons a t ih =>
    cases ha : a.chatHistory.find? (fun x => x.id == mid) with
    | some m0 =>
      rw [findMsg_cons_found ha] at h
      injection h with hm0
      subst hm0
      have hp := List.find?_some ha
      have hany : a.chatHistory.any (fun x => x.id == mid) = true :=
        List.any_eq_true.mpr ⟨m0, List.mem_of_find?_eq_some ha, hp⟩
      simp only [applyStatusUpdate, List.map_cons]
      rw [if_pos hany]
      exact findMsg_cons_found (find?_map_setStatus a.chatHistory mid
        (fun x => { x with status := some st }) (fun _ => rfl) m0 ha)
    | none =>
      rw [findMsg_cons_not_found ha] at h
      have hany : ¬ a.chatHistory.any (fun x => x.id == mid) = true := by
        rw [List.any_eq_true]
        rintro ⟨x, hx, hp⟩
        exact (List.find?_eq_none.mp ha x hx) hp
      simp only [applyStatusUpdate, List.map_cons]
      rw [if_neg hany, findMsg_cons_not_found ha]
      have := ih h
      simp only [applyStatusUpdate] at this
      exact this

/-- Applying `markFailed` rewrites the status of the first message carrying the id
to FAILED, provided every lead holding such a message is the addressed
lead. -/
theorem findMsg_markFailed (importers : List Importer)
    (iid mid : String) (m : Message)
    (h : findMsg importers mid = some m)
    (hin : ∀ i ∈ importers,
      i.chatHistory.any (fun x => x.id == mid) = true → i.id = iid) :
    findMsg (markFailed importers iid mid) mid =
      some { m with status := some .FAILED } := by
  induction importers with
  | nil => simp [findMsg] at h
  | cons a t ih =>
    cases ha : a.chatHistory.find? (fun x => x.id == mid) with
    | some m0 =>
      rw [findMsg_cons_found ha] at h
      injection h with hm0
      subst hm0
      have hp := List.find?_some ha
      have hany : a.chatHistory.any (fun x => x.id == mid) = true :=
        List.any_eq_true.mpr ⟨m0, List.mem_of_find?_eq_some ha, hp⟩
      have haid : (a.id == iid) = true :=
        beq_iff_eq.mpr (hin a (by simp) hany)
      simp only [markFailed, List.map_cons]
      rw [if_pos haid]
      exact findMsg_cons_found (find?_map_setStatus a.chatHistory mid
        (fun x => { x with status := some .FAILED }) (fun _ => rfl) m0 ha)
    | none =>
      rw [findMsg_cons_not_found ha] at h
      simp only [markFailed, List.map_cons]
      by_cases haid : (a.id == iid) = true
      · rw [if_pos haid]
        have hstep : ({ a with chatHistory := a.chatHistory.map fun x =>
            if x.id == mid then { x with status := some MessageStatus.FAILED }
            else x } : Importer).chatHistory.find?
            (fun x => x.id == mid) = none := by
          show (a.chatHistory.map _).find? _ = none
          rw [List.find?_eq_none]
          intro x hx
          rcases List.mem_map.mp hx with ⟨y, hy, rfl⟩
          have hyn := List.find?_eq_none.mp ha y hy
          by_cases hc : (y.id == mid) = true
          · exact absurd hc hyn
          · simp [hc]
        rw [findMsg_cons_not_found hstep]
        have := ih h (fun i hi => hin i (by simp [hi]))
        simp only [markFailed] at this
        exact this
      · rw [if_neg haid, findMsg_cons_not_found ha]
        have := ih h (fun i hi => hin i (by simp [hi]))
        simp only [markFailed] at this
        exact this

/-- In the store left by `addMessage`, any lead holding a message with the
fresh id is the addressed lead. -/
theorem addMessage_any_imp (importers : List Importer)
    (iid content sender : String) (ch : Option Channel)
    (st : Option MessageStatus) (now : Nat)
    (hfresh : ∀ i ∈ importers, ∀ m ∈ i.chatHistory, m.id ≠ toString now) :
    ∀ i ∈ addMessage importers iid content sender ch st now,
      i.chatHistory.any (fun x => x.id == toString now) = true →
      i.id = iid := by
  intro i hi hany
  simp only [addMessage, List.mem_map] at hi
  rcases hi with ⟨i0, hi0, rfl⟩
  by_cases h0 : i0.id ≠ iid
  · rw [if_pos h0] at hany ⊢
    rcases List.any_eq_true.mp hany with ⟨x, hx, hpx⟩
    exact absurd (by simpa using hpx) (hfresh i0 hi0 x hx)
  · rw [if_neg h0]
    push_neg at h0
    exact h0
/-- C1: for every accepted call to `sendMessage`, the statuses emitted
through the status-update notifier for that message id form a sublist of
[SENT, DELIVERED, READ] (so each is emitted at most once and in that
order, READ only after DELIVERED), every emission carries the call's
message id, and FAILED is never emitted. -/
theorem sendMessage_status_sequence_subseq
    (messageId to_ content : String) (channel : Channel)
    (failDraw readDraw : ℚ)
    (h : (MessagingService.sendMessage messageId to_ content channel
      failDraw readDraw).1.success = true) :
    (∀ e ∈ (MessagingService.sendMessage messageId to_ content channel
        failDraw readDraw).2, e.1 = messageId) ∧
    ((MessagingService.sendMessage messageId to_ content channel
        failDraw readDraw).2.map Prod.snd).Sublist
      [.SENT, .DELIVERED, .READ] ∧
    (∀ st : MessageStatus,
      ((MessagingService.sendMessage messageId to_ content channel
        failDraw readDraw).2.map Prod.snd).count st ≤ 1) ∧
    (messageId, MessageStatus.FAILED) ∉
      (MessagingService.sendMessage messageId to_ content channel
        failDraw readDraw).2 := by
  have hf : ¬ failDraw > 98 / 100 := by
    intro hc
    unfold MessagingService.sendMessage at h
    rw [if_pos hc] at h
    simp at h
  unfold MessagingService.sendMessage
  rw [if_neg hf]
  by_cases hr : readDraw > 3 / 10
  · rw [if_pos hr]
    refine ⟨?_, ?_, ?_, ?_⟩
    · intro e he
      simp only [List.cons_append, List.nil_append, List.mem_cons,
        List.not_mem_nil, or_false] at he
      rcases he with rfl | rfl | rfl <;> rfl
    · simp only [List.map_append, List.map_cons, List.map_nil]
      decide
    · intro st
      simp only [List.map_append, List.map_cons, List.map_nil]
      cases st <;> decide
    · simp
  · rw [if_neg hr]
    refine ⟨?_, ?_, ?_, ?_⟩
    · intro e he
      simp only [List.append_nil, List.mem_cons, List.not_mem_nil,
        or_false] at he
      rcases he with rfl | rfl <;> rfl
    · simp only [List.append_nil, List.map_cons, List.map_nil]
      decide
    · intro st
      simp only [List.append_nil, List.map_cons, List.map_nil]
      cases st <;> decide
    · simp

/-- Witness for C1 at a concrete accepted call. -/
theorem sendMessage_status_sequence_subseq_witness :
    (MessagingService.sendMessage "m1" "alice" "hello" .EMAIL
      (1 / 2) (1 / 2)).1.success = true ∧
    ((∀ e ∈ (MessagingService.sendMessage "m1" "alice" "hello" .EMAIL
        (1 / 2) (1 / 2)).2, e.1 = "m1") ∧
    ((MessagingService.sendMessage "m1" "alice" "hello" .EMAIL
        (1 / 2) (1 / 2)).2.map Prod.snd).Sublist
      [.SENT, .DELIVERED, .READ] ∧
    (∀ st : MessageStatus,
      ((MessagingService.sendMessage "m1" "alice" "hello" .EMAIL
        (1 / 2) (1 / 2)).2.map Prod.snd).count st ≤ 1) ∧
    ("m1", MessageStatus.FAILED) ∉
      (MessagingService.sendMessage "m1" "alice" "hello" .EMAIL
        (1 / 2) (1 / 2)).2) :=
  ⟨by norm_num [MessagingService.sendMessage],
   sendMessage_status_sequence_subseq "m1" "alice" "hello" .EMAIL
     (1 / 2) (1 / 2) (by norm_num [MessagingService.sendMessage])⟩

/-- C3: a send is rejected exactly when the failure draw exceeds 98/100 —
the draw is uniform on `[0,1)`, so the rejection region `(98/100, 1)` has
probability 2/100, and the condition never mentions the channel (third
conjunct) — in which case the call synchronously returns
`{success := false, error := "Gateway Timeout"}` and emits nothing, and
the app-level caller (`sendMessage`, `part_000` line 649) marks the
just-appended message FAILED in the store. -/
theorem sendMessage_rejection_spec (messageId to_ content : String)
    (channel : Channel) (failDraw readDraw : ℚ) :
    ((MessagingService.sendMessage messageId to_ content channel failDraw
        readDraw).1.success = false ↔ 98 / 100 < failDraw) ∧
    (∀ channel' : Channel,
      (MessagingService.sendMessage messageId to_ content channel failDraw
        readDraw).1 =
      (MessagingService.sendMessage messageId to_ content channel' failDraw
        readDraw).1) ∧
    (98 / 100 < failDraw →
      (MessagingService.sendMessage messageId to_ content channel failDraw
          readDraw).1 =
        { success := false, error := some "Gateway Timeout" } ∧
      (MessagingService.sendMessage messageId to_ content channel failDraw
          readDraw).2 = []) ∧
    (98 / 100 < failDraw →
      ∀ (importer : Importer) (now : Nat) (importers : List Importer),
        (∀ i ∈ importers, ∀ m ∈ i.chatHistory, m.id ≠ toString now) →
        (∃ i ∈ importers, i.id = importer.id) →
        statusOf (appSendMessage importer content channel failDraw readDraw
          now importers).1 (toString now) = some .FAILED) := by
  refine ⟨?_, ?_, ?_, ?_⟩
  · unfold MessagingService.sendMessage
    by_cases hf : failDraw > 98 / 100
    · rw [if_pos hf]
      simpa using hf
    · rw [if_neg hf]
      simpa using hf
  · intro channel'
    rfl
  · intro hf
    unfold MessagingService.sendMessage
    rw [if_pos hf]
    exact ⟨rfl, rfl⟩
  · intro hf importer now importers hfresh hlead
    have hsent : MessagingService.sendMessage (toString now)
        importer.contactDetail content channel failDraw readDraw =
        ({ success := false, error := some "Gateway Timeout" }, []) := by
      unfold MessagingService.sendMessage
      rw [if_pos hf]
    simp only [appSendMessage, hsent, Bool.false_eq_true, if_false]
    have h1 := findMsg_addMessage importers importer.id content "agent"
      (some channel) (some .SENDING) now hfresh hlead
    have h2 := findMsg_markFailed _ importer.id (toString now) _ h1
      (addMessage_any_imp importers importer.id content "agent"
        (some channel) (some .SENDING) now hfresh)
    unfold statusOf
    rw [h2]
    rfl

/-- Witness for C3's rejection branch at a concrete draw above the
threshold, with a one-lead store and a fresh timestamp. -/
theorem sendMessage_rejection_spec_witness :
    (98 / 100 < (99 / 100 : ℚ)) ∧
    statusOf (appSendMessage
      { id := "L1", companyName := "Acme", contactDetail := "a@b.c",
        status := .PENDING, chatHistory := [], activityLog := [],
        lastContacted := 0 } "hello" .EMAIL (99 / 100) (1 / 2) 7
      [{ id := "L1", companyName := "Acme", contactDetail := "a@b.c",
         status := .PENDING, chatHistory := [], activityLog := [],
         lastContacted := 0 }]).1 "7" = some .FAILED := by
  have hq : (98 / 100 : ℚ) < 99 / 100 := by norm_num
  refine ⟨hq, ?_⟩
  exact (sendMessage_rejection_spec "7" "a@b.c" "hello" .EMAIL
    (99 / 100) (1 / 2)).2.2.2 hq
    { id := "L1", companyName := "Acme", contactDetail := "a@b.c",
      status := .PENDING, chatHistory := [], activityLog := [],
      lastContacted := 0 } 7
    [{ id := "L1", companyName := "Acme", contactDetail := "a@b.c",
       status := .PENDING, chatHistory := [], activityLog := [],
       lastContacted := 0 }]
    (by simp) ⟨_, by simp, rfl⟩

/-- C9: along one app-level send (`sendTrace`), the stored status of the
message starts at SENDING and every subsequent write moves it strictly
forward in the order SENDING < SENT < DELIVERED < READ, with FAILED
written only on top of SENDING.  The hypotheses are the spec's §4.1 input
constraints: the message id is caller-unique (fresh) and the addressed
lead exists. -/
theorem sendTrace_status_monotone (importer : Importer) (content : String)
    (channel : Channel) (failDraw readDraw : ℚ) (now : Nat)
    (importers : List Importer)
    (hfresh : ∀ i ∈ importers, ∀ m ∈ i.chatHistory, m.id ≠ toString now)
    (hlead : ∃ i ∈ importers, i.id = importer.id) :
    ((sendTrace importer content channel failDraw readDraw now
        importers).map (fun s => statusOf s (toString now))).head? =
      some (some .SENDING) ∧
    List.Chain' (fun a b => statusStepOkOpt a b = true)
      ((sendTrace importer content channel failDraw readDraw now
        importers).map (fun s => statusOf s (toString now))) := by
  have h1 := findMsg_addMessage importers importer.id content "agent"
    (some channel) (some .SENDING) now hfresh hlead
  have e1 : statusOf (addMessage importers importer.id content "agent"
      (some channel) (some .SENDING) now) (toString now) =
      some .SENDING := by
    unfold statusOf
    rw [h1]
    rfl
  by_cases hf : failDraw > 98 / 100
  · have hsent : MessagingService.sendMessage (toString now)
        importer.contactDetail content channel failDraw readDraw =
        ({ success := false, error := some "Gateway Timeout" }, []) := by
      unfold MessagingService.sendMessage
      rw [if_pos hf]
    have h2 := findMsg_markFailed _ importer.id (toString now) _ h1
      (addMessage_any_imp importers importer.id content "agent"
        (some channel) (some .SENDING) now hfresh)
    have e2 : statusOf (markFailed (addMessage importers importer.id
        content "agent" (some channel) (some .SENDING) now) importer.id
        (toString now)) (toString now) = some .FAILED := by
      unfold statusOf
      rw [h2]
      rfl
    simp only [sendTrace, hsent, Bool.false_eq_true, if_false,
      List.map_cons, List.map_nil, e1, e2]
    exact ⟨rfl, by
      simp [List.chain'_cons, statusStepOkOpt, statusStepOk]⟩
  · have hsent : MessagingService.sendMessage (toString now)
        importer.contactDetail content channel failDraw readDraw =
        ({ success := true },
          [(toString now, .SENT), (toString now, .DELIVERED)]
            ++ if readDraw > 3 / 10 then [(toString now, .READ)]
               else []) := by
      unfold MessagingService.sendMessage
      rw [if_neg hf]
    have h2 := findMsg_applyStatusUpdate _ (toString now) .SENT _ h1
    have h3 := findMsg_applyStatusUpdate _ (toString now) .DELIVERED _ h2
    have h4 := findMsg_applyStatusUpdate _ (toString now) .READ _ h3
    have e2 : statusOf (applyStatusUpdate (addMessage importers importer.id
        content "agent" (some channel) (some .SENDING) now) (toString now)
        .SENT) (toString now) = some .SENT := by
      unfold statusOf
      rw [h2]
      rfl
    have e3 : statusOf (applyStatusUpdate (applyStatusUpdate (addMessage
        importers importer.id content "agent" (some channel)
        (some .SENDING) now) (toString now) .SENT) (toString now)
        .DELIVERED) (toString now) = some .DELIVERED := by
      unfold statusOf
      rw [h3]
      rfl
    have e4 : statusOf (applyStatusUpdate (applyStatusUpdate
        (applyStatusUpdate (addMessage importers importer.id content
        "agent" (some channel) (some .SENDING) now) (toString now) .SENT)
        (toString now) .DELIVERED) (toString now) .READ) (toString now) =
        some .READ := by
      unfold statusOf
      rw [h4]
      rfl
    by_cases hr : readDraw > 3 / 10
    · simp only [sendTrace, hsent, if_pos hr, eq_self_iff_true, if_true,
        List.cons_append, List.nil_append, List.scanl_cons,
        List.scanl_nil, List.map_cons, List.map_nil,
        List.singleton_append, e1, e2, e3, e4]
      exact ⟨rfl, by
        simp [List.chain'_cons, statusStepOkOpt, statusStepOk]⟩
    · simp only [sendTrace, hsent, if_neg hr, eq_self_iff_true, if_true,
        List.append_nil, List.scanl_cons, List.scanl_nil, List.map_cons,
        List.map_nil, List.singleton_append, e1, e2, e3]
      exact ⟨rfl, by
        simp [List.chain'_cons, statusStepOkOpt, statusStepOk]⟩

/-- Witness for C9 at a concrete accepted send over a one-lead store. -/
theorem sendTrace_status_monotone_witness :
    ((sendTrace
      { id := "L1", companyName := "Acme", contactDetail := "a@b.c",
        status := .PENDING, chatHistory := [], activityLog := [],
        lastContacted := 0 } "hello" .EMAIL (1 / 2) (1 / 2) 7
      [{ id := "L1", companyName := "Acme", contactDetail := "a@b.c",
         status := .PENDING, chatHistory := [], activityLog := [],
         lastContacted := 0 }]).map
        (fun s => statusOf s (toString 7))).head? =
      some (some .SENDING) ∧
    List.Chain' (fun a b => statusStepOkOpt a b = true)
      ((sendTrace
        { id := "L1", companyName := "Acme", contactDetail := "a@b.c",
          status := .PENDING, chatHistory := [], activityLog := [],
          lastContacted := 0 } "hello" .EMAIL (1 / 2) (1 / 2) 7
        [{ id := "L1", companyName := "Acme", contactDetail := "a@b.c",
           status := .PENDING, chatHistory := [], activityLog := [],
           lastContacted := 0 }]).map
          (fun s => statusOf s (toString 7))) :=
  sendTrace_status_monotone
    { id := "L1", companyName := "Acme", contactDetail := "a@b.c",
      status := .PENDING, chatHistory := [], activityLog := [],
      lastContacted := 0 } "hello" .EMAIL (1 / 2) (1 / 2) 7
    [{ id := "L1", companyName := "Acme", contactDetail := "a@b.c",
       status := .PENDING, chatHistory := [], activityLog := [],
       lastContacted := 0 }]
    (by simp) ⟨_, by simp, rfl⟩

/-- C7: for each of the three event kinds, registering a handler replaces
any previously registered one (after re-registration only the newest
handler is dispatched to, never the replaced one), and an emission of a
kind whose slot is empty is dropped (`none` — no invocation, no queueing,
no error). -/
theorem listeners_last_write_wins {α β γ : Type} (s : Listeners α β γ)
    (mid : String) (st : MessageStatus) (iid contact content : String)
    (ch : Channel) (tid : String) (ty : Bool) :
    (∀ h1 h2 : β,
      ((s.onMessageStatusUpdate h1).onMessageStatusUpdate h2).statusListener
        = some h2 ∧
      ((s.onMessageStatusUpdate h1).onMessageStatusUpdate h2).emitStatus
        mid st = some (h2, mid, st) ∧
      (h1 ≠ h2 →
        ((s.onMessageStatusUpdate h1).onMessageStatusUpdate h2).emitStatus
          mid st ≠ some (h1, mid, st))) ∧
    (∀ h1 h2 : α,
      ((s.onIncomingMessage h1).onIncomingMessage h2).incomingListener
        = some h2 ∧
      ((s.onIncomingMessage h1).onIncomingMessage h2).emitIncoming
        (some iid) contact content ch = some (h2, some iid, contact,
          content, ch) ∧
      (h1 ≠ h2 →
        ((s.onIncomingMessage h1).onIncomingMessage h2).emitIncoming
          (some iid) contact content ch ≠ some (h1, some iid, contact,
            content, ch))) ∧
    (∀ h1 h2 : γ,
      ((s.onTypingStatus h1).onTypingStatus h2).typingListener = some h2 ∧
      ((s.onTypingStatus h1).onTypingStatus h2).emitTyping tid ty =
        some (h2, tid, ty) ∧
      (h1 ≠ h2 →
        ((s.onTypingStatus h1).onTypingStatus h2).emitTyping tid ty ≠
          some (h1, tid, ty))) ∧
    (s.statusListener = none → s.emitStatus mid st = none) ∧
    (s.incomingListener = none →
      s.emitIncoming (some iid) contact content ch = none) ∧
    (s.typingListener = none → s.emitTyping tid ty = none) := by
  refine ⟨fun h1 h2 => ⟨rfl, rfl, fun hne => ?_⟩,
    fun h1 h2 => ⟨rfl, rfl, fun hne => ?_⟩,
    fun h1 h2 => ⟨rfl, rfl, fun hne => ?_⟩, fun h => ?_, fun h => ?_,
    fun h => ?_⟩
  · intro hc
    simp only [Listeners.onMessageStatusUpdate, Listeners.emitStatus,
      Option.map_some', Option.some.injEq, Prod.mk.injEq] at hc
    exact hne hc.1.symm
  · intro hc
    simp only [Listeners.onIncomingMessage, Listeners.emitIncoming,
      Option.map_some', Option.some.injEq, Prod.mk.injEq] at hc
    exact hne hc.1.symm
  · intro hc
    simp only [Listeners.onTypingStatus, Listeners.emitTyping,
      Option.map_some', Option.some.injEq, Prod.mk.injEq] at hc
    exact hne hc.1.symm
  · simp [Listeners.emitStatus, h]
  · simp [Listeners.emitIncoming, h]
  · simp [Listeners.emitTyping, h]

theorem map_eq_self_of {α : Type} (l : List α) (f : α → α)
    (h : ∀ x ∈ l, f x = x) : l.map f = l := by
  induction l with
  | nil => rfl
  | cons a t ih =>
    rw [List.map_cons, h a (by simp), ih fun x hx => h x (by simp [hx])]

/-- C8: applying a status update for an id absent from the whole store is
a no-op; in general the update leaves the number of leads, every lead
field other than `chatHistory`, and every message other than those whose
id matches exactly unchanged, replacing only a matching message's status
field. -/
theorem applyStatusUpdate_frame (importers : List Importer) (mid : String)
    (st : MessageStatus) :
    ((∀ i ∈ importers, ∀ m ∈ i.chatHistory, m.id ≠ mid) →
      applyStatusUpdate importers mid st = importers) ∧
    (applyStatusUpdate importers mid st).length = importers.length ∧
    (∀ (k : Nat) (imp : Importer), importers[k]? = some imp →
      ∃ imp', (applyStatusUpdate importers mid st)[k]? = some imp' ∧
        imp'.id = imp.id ∧ imp'.companyName = imp.companyName ∧
        imp'.contactDetail = imp.contactDetail ∧
        imp'.status = imp.status ∧
        imp'.activityLog = imp.activityLog ∧
        imp'.lastContacted = imp.lastContacted ∧
        imp'.chatHistory.length = imp.chatHistory.length ∧
        ∀ (j : Nat) (m : Message), imp.chatHistory[j]? = some m →
          imp'.chatHistory[j]? =
            some (if m.id = mid then { m with status := some st }
                  else m)) := by
  refine ⟨?_, ?_, ?_⟩
  · intro habs
    unfold applyStatusUpdate
    refine map_eq_self_of _ _ fun i hi => ?_
    have hany : ¬ i.chatHistory.any (fun m => m.id == mid) = true := by
      rw [List.any_eq_true]
      rintro ⟨x, hx, hp⟩
      exact habs i hi x hx (by simpa using hp)
    rw [if_neg hany]
  · unfold applyStatusUpdate
    exact List.length_map _ _
  · intro k imp hk
    unfold applyStatusUpdate
    rw [List.getElem?_map, hk, Option.map_some']
    by_cases hany : imp.chatHistory.any (fun m => m.id == mid) = true
    · refine ⟨_, rfl, ?_⟩
      rw [if_pos hany]
      refine ⟨rfl, rfl, rfl, rfl, rfl, rfl, List.length_map _ _, ?_⟩
      intro j m hj
      show (imp.chatHistory.map _)[j]? = _
      rw [List.getElem?_map, hj, Option.map_some']
      by_cases hc : m.id = mid
      · rw [if_pos hc, if_pos (show (m.id == mid) = true from
          beq_iff_eq.mpr hc)]
      · rw [if_neg hc, if_neg (show ¬ (m.id == mid) = true from
          by simpa using hc)]
    · refine ⟨_, rfl, ?_⟩
      rw [if_neg hany]
      refine ⟨rfl, rfl, rfl, rfl, rfl, rfl, rfl, ?_⟩
      intro j m hj
      have hmem : m ∈ imp.chatHistory := by
        have := List.getElem?_eq_some_iff.mp hj
        rcases this with ⟨hlt, hget⟩
        exact hget ▸ List.getElem_mem hlt
      have hne : ¬ m.id = mid := by
        intro hc
        exact hany (List.any_eq_true.mpr ⟨m, hmem, beq_iff_eq.mpr hc⟩)
      rw [if_neg hne, hj]

/-! ## Concrete webhook scenarios (spec §8 examples) -/

/-- The spec §8 WhatsApp example payload:
`{entry:[{changes:[{value:{messages:[{text:{body:"Hi"},
from:"15558675309"}]}}]}]}`. -/
def waExamplePayload : RawPayload :=
  { entry := [{ changes := [{ value := some { messages :=
      [{ text := some { body := some "Hi" },
         from_ := some "15558675309" }] } }] }] }

/-- A lead storing the formatted US number of the spec §8 example. -/
def formattedLead : Importer :=
  { id := "L1", companyName := "Acme Trade",
    contactDetail := "+1 (555) 867-5309", status := .PENDING,
    chatHistory := [], activityLog := [], lastContacted := 0 }

/-- The same lead with the bare national number, which is literally a
substring of the payload's `from` field. -/
def bareNumberLead : Importer :=
  { formattedLead with contactDetail := "5558675309" }

/-- The spec §8 WeChat example payload
`{Content:"ok", FromUserName:"wx_123"}`. -/
def wcExamplePayload : RawPayload :=
  { Content := some "ok", FromUserName := some "wx_123" }

/-- A lead with contactDetail `"wx_123"` and one prior message. -/
def wcLead : Importer :=
  { id := "W1", companyName := "WeChat Co", contactDetail := "wx_123",
    status := .CONTACTED,
    chatHistory :=
      [{ id := "m0", content := "hello", sender := "agent",
         timestamp := 1, channel := .WECHAT, status := some .READ }],
    activityLog :=
      [{ id := "a0", timestamp := 1, type := "system",
         description := "Outbound via WeChat" }],
    lastContacted := 1 }

/-- C2 counterexample: the code performs no phone-number normalization —
with the stored contact detail `"+1 (555) 867-5309"` and the extracted
contact `"15558675309"` neither string is a substring of the other, so
the bidirectional lookup fails and the payload is dropped with the store
unchanged. -/
theorem webhook_formatted_contact_not_matched :
    contactMatches "15558675309" formattedLead = false ∧
    onWebhookPayload "WhatsApp" waExamplePayload (some 1111) 2222
      [formattedLead] = ([formattedLead], []) := by
  exact ⟨by decide, by decide⟩

/-- C2 (amended): the example succeeds only when one string is literally
a substring of the other; with the stored contact detail `"5558675309"`
the lookup matches and the inbound `"Hi"` message is appended to that
lead. -/
theorem webhook_bare_substring_contact_matched :
    contactMatches "15558675309" bareNumberLead = true ∧
    onWebhookPayload "WhatsApp" waExamplePayload (some 1111) 2222
      [bareNumberLead] =
      ([{ bareNumberLead with
          status := .ENGAGED,
          chatHistory :=
            [{ id := "wh-2222", content := "Hi",
               sender := "importer", timestamp := 1111,
               channel := .WHATSAPP, status := some .DELIVERED }],
          activityLog :=
            [{ id := "log-2222", timestamp := 2222,
               type := "system",
               description := "Incoming WhatsApp message" }],
          lastContacted := 2222 }],
       [.stopEnrollment "L1"]) := by
  exact ⟨by decide, by decide⟩

/-- C6: the WeChat example payload matched against the lead with
contactDetail `"wx_123"` appends an inbound DELIVERED message with
content `"ok"` and sender `"importer"`, plus an activity-log entry naming
the channel. -/
theorem webhook_wechat_example_appends :
    onWebhookPayload "WeChat" wcExamplePayload (some 400) 500 [wcLead] =
      ([{ wcLead with
          status := .ENGAGED,
          chatHistory :=
            wcLead.chatHistory ++
              [{ id := "wh-500", content := "ok", sender := "importer",
                 timestamp := 400, channel := .WECHAT,
                 status := some .DELIVERED }],
          activityLog :=
            wcLead.activityLog ++
              [{ id := "log-500", timestamp := 500, type := "system",
                 description := "Incoming WeChat message" }],
          lastContacted := 500 }],
       [.stopEnrollment "W1"]) := by
  decide

/-- C5: when the extracted contact matches no stored lead in either
substring direction, the handler produces no event and leaves the store
exactly unchanged. -/
theorem onWebhookPayload_no_match_noop (channel : String) (p : RawPayload)
    (timestamp : Option Nat) (now : Nat) (importers : List Importer)
    (h : ∀ i ∈ importers,
      contactMatches ((extractContentContact channel p).2.getD "") i
        = false) :
    onWebhookPayload channel p timestamp now importers =
      (importers, []) := by
  simp only [onWebhookPayload]
  by_cases hg : (jsTruthy (extractContentContact channel p).1 &&
      jsTruthy (extractContentContact channel p).2) = true
  · rw [if_pos hg]
    have hfind : importers.find?
        (contactMatches ((extractContentContact channel p).2.getD ""))
        = none :=
      List.find?_eq_none.mpr fun i hi => by simp [h i hi]
    rw [hfind]
  · rw [if_neg hg]

/-- Witness for C5 at the spec §8 WhatsApp example against the
formatted-number lead (which the substring lookup does not match). -/
theorem onWebhookPayload_no_match_noop_witness :
    (∀ i ∈ [formattedLead],
      contactMatches
        ((extractContentContact "WhatsApp" waExamplePayload).2.getD "") i
        = false) ∧
    onWebhookPayload "WhatsApp" waExamplePayload (some 1111) 2222
      [formattedLead] = ([formattedLead], []) :=
  ⟨by decide,
   onWebhookPayload_no_match_noop "WhatsApp" waExamplePayload (some 1111)
     2222 [formattedLead] (by decide)⟩

/-- C4 counterexample: at the WeChat example the correlation succeeds (the
store is mutated and the campaign stop is issued), yet no inbound-message
event goes through the notifier: the effect list holds no
`notifyIncoming`. -/
theorem webhook_match_emits_no_incoming_event :
    (onWebhookPayload "WeChat" wcExamplePayload (some 400) 500
      [wcLead]).1 ≠ [wcLead] ∧
    (onWebhookPayload "WeChat" wcExamplePayload (some 400) 500
      [wcLead]).2 = [.stopEnrollment "W1"] ∧
    ∀ e ∈ (onWebhookPayload "WeChat" wcExamplePayload (some 400) 500
      [wcLead]).2, e.isNotifyIncoming = false := by
  exact ⟨by decide, by decide, by decide⟩

/-- C4 (amended): the webhook handler mutates the matched lead directly
and never emits an inbound-message event through the notifier — its only
external call is the campaign stop. -/
theorem onWebhookPayload_no_notifyIncoming (channel : String)
    (p : RawPayload) (timestamp : Option Nat) (now : Nat)
    (importers : List Importer) :
    ∀ e ∈ (onWebhookPayload channel p timestamp now importers).2,
      e.isNotifyIncoming = false := by
  intro e he
  simp only [onWebhookPayload] at he
  by_cases hg : (jsTruthy (extractContentContact channel p).1 &&
      jsTruthy (extractContentContact channel p).2) = true
  · rw [if_pos hg] at he
    cases hfind : importers.find?
        (contactMatches ((extractContentContact channel p).2.getD ""))
      with
    | some existing =>
      rw [hfind] at he
      simp only [List.mem_singleton] at he
      subst he
      rfl
    | none =>
      rw [hfind] at he
      simp at he
  · rw [if_neg hg] at he
    simp at he

/-- Witness for the amended C4 at the WeChat example effect. -/
theorem onWebhookPayload_no_notifyIncoming_witness :
    AppEffect.stopEnrollment "W1" ∈ (onWebhookPayload "WeChat"
      wcExamplePayload (some 400) 500 [wcLead]).2 ∧
    (AppEffect.stopEnrollment "W1").isNotifyIncoming = false :=
  ⟨by decide,
   onWebhookPayload_no_notifyIncoming "WeChat" wcExamplePayload (some 400)
     500 [wcLead] (AppEffect.stopEnrollment "W1") (by decide)⟩

/-- C10: a WhatsApp payload whose primary nested shape is present (a first
message with a `from` field) but whose text body is absent is not
dropped: the extracted content is the literal `"[Media]"`, and when the
contact matches a stored lead the `"[Media]"` message is appended to the
first matching lead. -/
theorem webhook_whatsapp_media_fallback (p : RawPayload) (m : WAMessage)
    (f : String) (timestamp : Option Nat) (now : Nat)
    (importers : List Importer) (existing : Importer)
    (hm : waPrimaryMessage p = some m)
    (hbody : m.text.bind WAText.body = none)
    (hf : m.from_ = some f) (hfne : f ≠ "")
    (hfind : importers.find? (contactMatches f) = some existing) :
    extractContentContact "WhatsApp" p = (some "[Media]", some f) ∧
    onWebhookPayload "WhatsApp" p timestamp now importers =
      (importers.map fun i =>
        if i.id = existing.id then
          { i with
            status := .ENGAGED
            chatHistory := i.chatHistory ++
              [{ id := "wh-" ++ toString now, content := "[Media]",
                 sender := "importer", timestamp := jsNumOr timestamp now,
                 channel := .WHATSAPP, status := some .DELIVERED }]
            lastContacted := now
            activityLog := i.activityLog ++
              [{ id := "log-" ++ toString now, timestamp := now,
                 type := "system",
                 description := "Incoming WhatsApp message" }] }
        else i,
       [.stopEnrollment existing.id]) := by
  have hex : extractContentContact "WhatsApp" p =
      (some "[Media]", some f) := by
    unfold extractContentContact
    rw [if_pos rfl, hm]
    show (some (waContent m), m.from_) = (some "[Media]", some f)
    unfold waContent
    rw [hbody, hf]
  refine ⟨hex, ?_⟩
  have hbe : (f == "") = false := by
    simpa using hfne
  have hguard : (jsTruthy (extractContentContact "WhatsApp" p).1 &&
      jsTruthy (extractContentContact "WhatsApp" p).2) = true := by
    rw [hex]
    simp [jsTruthy, hbe]
  simp only [onWebhookPayload]
  rw [if_pos hguard, hex]
  simp only [Option.getD_some]
  rw [hfind]
  rfl

/-- Witness payload for C10: primary WhatsApp shape, `from` set, no text
object. -/
def mediaPayload : RawPayload :=
  { entry := [{ changes := [{ value := some { messages :=
      [{ text := none, from_ := some "15558675309" }] } }] }] }

/-- Witness for C10 at `mediaPayload` against the bare-number lead. -/
theorem webhook_whatsapp_media_fallback_witness :
    (waPrimaryMessage mediaPayload =
      some { text := none, from_ := some "15558675309" }) ∧
    (({ text := none, from_ := some "15558675309" } :
      WAMessage).text.bind WAText.body = none) ∧
    ("15558675309" ≠ "") ∧
    ([bareNumberLead].find? (contactMatches "15558675309") =
      some bareNumberLead) ∧
    (extractContentContact "WhatsApp" mediaPayload =
      (some "[Media]", some "15558675309") ∧
    onWebhookPayload "WhatsApp" mediaPayload (some 9) 10 [bareNumberLead] =
      ([bareNumberLead].map fun i =>
        if i.id = bareNumberLead.id then
          { i with
            status := .ENGAGED
            chatHistory := i.chatHistory ++
              [{ id := "wh-" ++ toString 10, content := "[Media]",
                 sender := "importer", timestamp := jsNumOr (some 9) 10,
                 channel := .WHATSAPP, status := some .DELIVERED }]
            lastContacted := 10
            activityLog := i.activityLog ++
              [{ id := "log-" ++ toString 10, timestamp := 10,
                 type := "system",
                 description := "Incoming WhatsApp message" }] }
        else i,
       [.stopEnrollment bareNumberLead.id])) :=
  ⟨by decide, by decide, by decide, by decide,
   webhook_whatsapp_media_fallback mediaPayload
     { text := none, from_ := some "15558675309" } "15558675309" (some 9)
     10 [bareNumberLead] bareNumberLead (by decide) (by decide) rfl
     (by decide) (by decide)⟩

end Shreenathji
